import Mathlib

/-!
Verification of the Grok Telegram group-chat bot (`src/main.py`).

The embedding models Python strings as lists of characters and makes the
Python semantics that matter here explicit: truthiness of optional strings,
`str.replace`/`str.strip`/`str.lower`, `collections.deque` with `maxlen`,
dict/list subscripting (raising `KeyError` / `IndexError` / `TypeError`),
and `int()` applied to a possibly absent environment variable.  Network
transport is an oracle handed to `ask_grok`; fallible steps return
`Except PyExc`, where an `Except.error` value means an uncaught Python
exception escaping the modelled function.
-/

namespace GrokBot

/-- Python strings are modelled as lists of characters. -/
abbrev Str := List Char

/-- Turn a Lean string literal into the character-list model. -/
def str (s : String) : Str := s.data

/-- Python `str.lower` (character-wise case folding). -/
def lower (s : Str) : Str := s.map Char.toLower

/-- Characters removed by Python `str.strip()` with no argument. -/
def pyIsSpace (c : Char) : Bool :=
  c == ' ' || c == '\t' || c == '\n' || c == '\r' || c == '\x0b' || c == '\x0c'

/-- Python `str.strip()`: drop whitespace from both ends. -/
def pyStrip (s : Str) : Str :=
  ((s.dropWhile pyIsSpace).reverse.dropWhile pyIsSpace).reverse

/-- Does the pattern start the given list?  (Used for substring search.) -/
def leadsWith : Str → Str → Bool
  | [], _ => true
  | _ :: _, [] => false
  | p :: ps, c :: cs => p == c && leadsWith ps cs

/-- Python substring containment `pat in s`. -/
def listContains (s pat : Str) : Bool :=
  s.tails.any fun t => leadsWith pat t

/-- Fuel-indexed worker for Python `str.replace` (leftmost, non-overlapping),
structurally recursive so the kernel can evaluate it. -/
def replaceListAux (pat rep : Str) : Nat → Str → Str
  | _, [] => []
  | 0, s => s
  | fuel + 1, c :: rest =>
    if !pat.isEmpty && leadsWith pat (c :: rest) then
      rep ++ replaceListAux pat rep fuel (rest.drop (pat.length - 1))
    else
      c :: replaceListAux pat rep fuel rest

/-- Python `text.replace(pat, rep)`: replace every occurrence of `pat`
(leftmost first, non-overlapping). -/
def replaceList (pat rep s : Str) : Str := replaceListAux pat rep s.length s

/-- Python `a or b` where `a` is an optional string (`None` and `""` are falsy). -/
def orElseStr (a : Option Str) (b : Str) : Str :=
  match a with
  | some s => if s.isEmpty then b else s
  | none => b

/-- Python `(x or "")` for an optional string. -/
def orEmpty (a : Option Str) : Str :=
  match a with
  | some s => s
  | none => []

/-- `collections.deque(maxlen := cap)` append, the operation behind
`_HISTORY[chat_id].append(...)` (main.py line 49): a full buffer drops its
single oldest entry before the new one is added. -/
def dequeAppend (cap : Nat) (buf : List α) (x : α) : List α :=
  if cap = 0 then []
  else if cap ≤ buf.length then buf.tail ++ [x]
  else buf ++ [x]

/-- A whole sequence of appends into an initially empty per-chat buffer. -/
def histAppendAll (cap : Nat) (xs : List α) : List α :=
  xs.foldl (dequeAppend cap) []

/-- Sender identity as exposed by the transport (aiogram `types.User`). -/
structure TgUser where
  id : Int
  firstName : Str
  lastName : Option Str
  username : Option Str

/-- The message fields `format_line` and `handle_group` read. -/
structure MsgData where
  text : Option Str
  caption : Option Str
  contentType : Str
  fromUser : TgUser

/-- An inbound message together with its optional replied-to message. -/
structure Msg where
  data : MsgData
  replyTo : Option MsgData

/-- `format_user` (main.py lines 64-71): "Name (@handle)", falling back to
just the name, with Python truthiness filtering of the name parts. -/
def format_user (u : TgUser) : Str :=
  let parts : List Str :=
    (if u.firstName.isEmpty then [] else [u.firstName]) ++
      (match u.lastName with
       | some l => if l.isEmpty then [] else [l]
       | none => [])
  let name := List.intercalate (str " ") parts
  match u.username with
  | some un => if un.isEmpty then name else name ++ str " (@" ++ un ++ str ")"
  | none => name

/-- Python slice `s[:i]` for a possibly negative bound `i`. -/
def pySliceTo (s : Str) (i : Int) : Str :=
  if 0 ≤ i then s.take i.toNat else s.take (s.length - (-i).toNat)

/-- The placeholder text for non-text content (main.py line 90). -/
def contentPlaceholder (m : MsgData) : Str := str "[" ++ m.contentType ++ str " message]"

/-- The raw text chosen by `msg.text or msg.caption or "[... message]"`. -/
def rawText (m : MsgData) : Str :=
  orElseStr m.text (orElseStr m.caption (contentPlaceholder m))

/-- The text after `text.replace("\n", " ")` (main.py line 91). -/
def collapsedText (m : MsgData) : Str :=
  (rawText m).map fun c => if c = '\n' then ' ' else c

/-- The possibly-truncated snippet body of a history line
(main.py lines 92-93). -/
def snippetText (maxLen : Int) (m : MsgData) : Str :=
  if maxLen < ((collapsedText m).length : Int) then
    pySliceTo (collapsedText m) (maxLen - 1) ++ ['…']
  else collapsedText m

/-- The author label the snippet body is prefixed with
(main.py lines 94-96). -/
def authorLabel (botDisplay : Str) (m : MsgData) (isBot : Bool) : Str :=
  if isBot then str "> " ++ botDisplay ++ str " (you): "
  else str "> " ++ format_user m.fromUser ++ str ": "

/-- `format_line` (main.py lines 74-96). -/
def format_line (maxLen : Int) (botDisplay : Str) (m : MsgData) (isBot : Bool) : Str :=
  authorLabel botDisplay m isBot ++ snippetText maxLen m

/-- The mention handle stored by `ensure_identity`
(main.py line 59): `"@" + me.username.lower()`. -/
def mkMentionHandle (username : Str) : Str := '@' :: lower username

/-- JSON values, as produced by `response.json()`. -/
inductive JVal where
  | jnull
  | jbool (b : Bool)
  | jnum (n : Int)
  | jstr (s : Str)
  | jarr (xs : List JVal)
  | jobj (fields : List (Str × JVal))

/-- The Python exceptions the modelled code can raise. -/
inductive PyExc where
  | valueError
  | typeError
  | keyError
  | indexError
  | runtimeError (msg : Str)

/-- Python subscripting `v[k]` with a string key: `KeyError` on a dict
missing the key, `TypeError` on every non-dict value. -/
def subscriptKey (v : JVal) (k : Str) : Except PyExc JVal :=
  match v with
  | .jobj fields =>
    match fields.lookup k with
    | some x => .ok x
    | none => .error .keyError
  | _ => .error .typeError

/-- Python subscripting `v[i]` with a non-negative integer index:
`IndexError` past the end of a list or string, `KeyError` on a dict
(JSON objects have only string keys), `TypeError` otherwise. -/
def subscriptIdx (v : JVal) (i : Nat) : Except PyExc JVal :=
  match v with
  | .jarr xs =>
    match xs[i]? with
    | some x => .ok x
    | none => .error .indexError
  | .jstr s =>
    match s[i]? with
    | some c => .ok (.jstr [c])
    | none => .error .indexError
  | .jobj _ => .error .keyError
  | _ => .error .typeError

/-- `data["choices"][0]["message"]["content"]` (main.py line 167). -/
def extractContent (v : JVal) : Except PyExc JVal :=
  match subscriptKey v (str "choices") with
  | .error e => .error e
  | .ok c =>
    match subscriptIdx c 0 with
    | .error e => .error e
    | .ok c0 =>
      match subscriptKey c0 (str "message") with
      | .error e => .error e
      | .ok m => subscriptKey m (str "content")

/-- The request body `ask_grok` posts (model id, system entry, user entry). -/
structure Payload where
  model : Str
  systemContent : Str
  userContent : Str

/-- What one HTTP POST to the completion endpoint came back with. -/
structure HttpResponse where
  statusOk : Bool
  statusDetail : Str
  body : Option JVal

/-- The outcome of one HTTP POST: either the connection/timeout failed
(`httpx.HTTPError` from `client.post` itself) or a response arrived. -/
inductive Outcome where
  | netError (detail : Str)
  | response (r : HttpResponse)

/-- The fixed system instruction (main.py lines 144-147). -/
def systemInstruction : Str :=
  str "You are Grok integrated into a Telegram group chat. Respond concisely and helpfully using the context."

/-- Placeholder returned when the body is not valid JSON (main.py line 165). -/
def malformedMsg : Str := str "<Grok response malformed – expected JSON>"

/-- Placeholder returned when `httpx.HTTPError` is caught (main.py line 169). -/
def transportMsg (d : Str) : Str := str "<Grok API error – " ++ d ++ str ">"

/-- Placeholder returned when the API key is falsy (main.py line 128). -/
def missingKeyMsg : Str := str "<XAI_API_KEY missing>"

/-- The `blocks` list built in `ask_grok` (main.py lines 132-137),
translated append by append. -/
def buildBlocks (history_lines : List Str) (replied_line : Option Str) (prompt : Str) :
    List Str :=
  let blocks : List Str := []
  let blocks := if history_lines.isEmpty then blocks
    else blocks ++ [str "Chat history:\n" ++ List.intercalate (str "\n") history_lines]
  let blocks :=
    match replied_line with
    | some r =>
      if !r.isEmpty && !history_lines.contains r
        then blocks ++ [str "Replied message:\n" ++ r] else blocks
    | none => blocks
  blocks ++ [str "User prompt:\n" ++ prompt]

/-- The payload `ask_grok` assembles (main.py lines 139-151). -/
def mkPayload (history_lines : List Str) (replied_line : Option Str) (prompt : Str) :
    Payload :=
  ⟨str "grok-4", systemInstruction,
    List.intercalate (str "\n\n") (buildBlocks history_lines replied_line prompt)⟩

/-- `ask_grok` (main.py lines 99-169).  The transport is an oracle mapping a
call index and the posted payload to an outcome; the function performs its
single POST at index 0.  `Except.error e` means the Python exception `e`
escapes `ask_grok` uncaught; `Except.ok` is a value returned to the caller. -/
def ask_grok (apiKey : Str) (hist : List (Bool × Str)) (prompt : Str)
    (replied_line : Option Str) (posts : Nat → Payload → Outcome) : Except PyExc JVal :=
  if apiKey.isEmpty then .ok (.jstr missingKeyMsg)
  else
    let history_lines := hist.map fun p => p.2
    match posts 0 (mkPayload history_lines replied_line prompt) with
    | .netError d => .ok (.jstr (transportMsg d))
    | .response r =>
      if r.statusOk then
        match r.body with
        | none => .ok (.jstr malformedMsg)
        | some v => extractContent v
      else .ok (.jstr (transportMsg r.statusDetail))

/-- The mention gate (main.py line 197):
`BOT_USERNAME in (msg.text or "").lower()`. -/
def mentionGate (botUsername text : Str) : Bool := listContains (lower text) botUsername

/-- The residual prompt (main.py line 200):
`(msg.text or "").replace(BOT_USERNAME, "").strip()`. -/
def residualPrompt (botUsername text : Str) : Str := pyStrip (replaceList botUsername [] text)

/-- The usage-hint reply (main.py line 202). -/
def usageHint (botUsername : Str) : Str :=
  str "Add a prompt after mentioning me, e.g. " ++ botUsername ++ str " what’s up?"

/-- What one `handle_group` invocation did: the final history buffer of the
conversation, the reply sent to the chat (if any), how many times the
completion client was invoked, and an exception escaping the handler. -/
structure HandlerResult where
  buf : List (Bool × Str)
  sentReply : Option Str
  grokCalls : Nat
  escaped : Option PyExc

/-- `handle_group` (main.py lines 172-216) for one conversation.  `ask`
abstracts the completion call (`ask_grok` applied to prompt and optional
replied-to line); the bot's sent reply is re-read as a text message whose
text is the answer, as `format_line(sent, True)` does. -/
def handle_group (cap : Nat) (maxLen : Int) (botUsername botDisplay : Str) (botId : Int)
    (buf : List (Bool × Str)) (msg : Msg)
    (ask : Str → Option Str → Except PyExc Str) : HandlerResult :=
  let is_bot_msg : Bool := msg.data.fromUser.id == botId
  let buf1 := dequeAppend cap buf
    (is_bot_msg, format_line maxLen botDisplay msg.data is_bot_msg)
  if mentionGate botUsername (orEmpty msg.data.text) then
    let prompt := residualPrompt botUsername (orEmpty msg.data.text)
    if prompt.isEmpty then ⟨buf1, some (usageHint botUsername), 0, none⟩
    else
      let replied := msg.replyTo.map fun r =>
        format_line maxLen botDisplay r (r.fromUser.id == botId)
      match ask prompt replied with
      | .ok answer =>
        let sent : MsgData := ⟨some answer, none, str "text", ⟨botId, botDisplay, none, none⟩⟩
        ⟨dequeAppend cap buf1 (true, format_line maxLen botDisplay sent true),
          some answer, 1, none⟩
      | .error e => ⟨buf1, none, 1, some e⟩
  else ⟨buf1, none, 0, none⟩

/-- The digits value of an all-digit, non-empty string. -/
def digitsVal (s : Str) : Option Nat :=
  if s.isEmpty then none
  else if s.all Char.isDigit then
    some (s.foldl (fun acc c => acc * 10 + (c.toNat - 48)) 0)
  else none

/-- Python `int(s)` applied to a string. -/
def pyIntStr (s : Str) : Except PyExc Int :=
  match pyStrip s with
  | '-' :: ds =>
    match digitsVal ds with
    | some n => .ok (-(n : Int))
    | none => .error .valueError
  | '+' :: ds =>
    match digitsVal ds with
    | some n => .ok (n : Int)
    | none => .error .valueError
  | ds =>
    match digitsVal ds with
    | some n => .ok (n : Int)
    | none => .error .valueError

/-- Python `int(x)` where `x` came from `os.getenv`: `int(None)` raises
`TypeError`. -/
def pyInt : Option Str → Except PyExc Int
  | none => .error .typeError
  | some s => pyIntStr s

/-- The configuration the module-level startup code produces. -/
structure Config where
  botToken : Str
  xaiKey : Str
  maxSnippetLen : Int
  messageLimit : Int

/-- Module-level startup of main.py (lines 29-46): check the two credentials,
then evaluate `int(os.getenv("MAX_SNIPPET_LEN"))` and
`int(os.getenv("MESSAGE_LIMIT"))`.  An `Except.error` is a fatal exception
during import. -/
def startup (env : Str → Option Str) : Except PyExc Config :=
  let botToken := env (str "BOT_TOKEN")
  let xaiKey := env (str "XAI_API_KEY")
  if (orEmpty botToken).isEmpty then
    .error (.runtimeError (str "BOT_TOKEN missing - set it in .env"))
  else if (orEmpty xaiKey).isEmpty then
    .error (.runtimeError (str "XAI_API_KEY missing - set it in .env"))
  else
    match pyInt (env (str "MAX_SNIPPET_LEN")) with
    | .error e => .error e
    | .ok m =>
      match pyInt (env (str "MESSAGE_LIMIT")) with
      | .error e => .error e
      | .ok l => .ok ⟨orEmpty botToken, orEmpty xaiKey, m, l⟩

/-! ## Helper lemmas -/

lemma listContains_nil (pat : Str) (h : pat ≠ []) : listContains [] pat = false := by
  cases pat with
  | nil => exact absurd rfl h
  | cons c cs => rfl

lemma foldl_dequeAppend (cap : Nat) (xs : List α) :
    List.foldl (dequeAppend cap) ([] : List α) xs = xs.drop (xs.length - cap) := by
  induction xs using List.reverseRecOn with
  | nil => simp
  | append_singleton ys y ih =>
    rw [List.foldl_append, List.foldl_cons, List.foldl_nil, ih]
    simp only [dequeAppend]
    split_ifs with h1 h2
    · subst h1
      rw [Nat.sub_zero, List.drop_length]
    · rw [List.length_drop] at h2
      have hcy : cap ≤ ys.length := by omega
      rw [List.tail_drop, List.drop_append_eq_append_drop]
      have e1 : ys.length - cap + 1 = (ys ++ [y]).length - cap := by
        simp only [List.length_append, List.length_cons, List.length_nil]
        omega
      have e2 : (ys ++ [y]).length - cap - ys.length = 0 := by
        simp only [List.length_append, List.length_cons, List.length_nil]
        omega
      rw [e1, e2, List.drop_zero]
    · rw [List.length_drop] at h2
      have hyc : ys.length < cap := by omega
      have e1 : ys.length - cap = 0 := by omega
      have e2 : (ys ++ [y]).length - cap = 0 := by
        simp only [List.length_append, List.length_cons, List.length_nil]
        omega
      rw [e1, e2, List.drop_zero, List.drop_zero]

/-! ## Claim C5: strict FIFO eviction of the history buffer -/

/-- Claim C5 (confirmed): after any finite sequence of appends into an
initially empty buffer, the buffer equals exactly the most recent
`min(capacity, total appended)` entries in insertion order (a suffix of the
append sequence, hence strict FIFO with no reordering and no deduplication),
and its length never exceeds the capacity. -/
theorem claim5_history_fifo (cap : Nat) (xs : List (Bool × Str)) :
    histAppendAll cap xs = xs.drop (xs.length - cap) ∧
      (histAppendAll cap xs).length = min cap xs.length ∧
      (histAppendAll cap xs).length ≤ cap := by
  have h := foldl_dequeAppend cap xs
  unfold histAppendAll
  rw [h]
  refine ⟨rfl, ?_, ?_⟩ <;> rw [List.length_drop] <;> omega

/-! ## Claim C2: case-insensitive mention detection and residual prompt -/

/-- Claim C2 (confirmed): when the stored (lowercased) mention handle occurs
as a case-insensitive substring of the message text, the gate on main.py
line 197 signals a mention, and the residual prompt is the original text
with every occurrence of the handle literal removed (`str.replace`, leftmost
non-overlapping) and then stripped of surrounding whitespace — also when the
handle occurs in the text with different letter casing, in which case the
literal occurrences removed are only the exact-case ones. -/
theorem claim2_mention_detection (text handle : Str)
    (hL : lower handle = handle)
    (hOcc : listContains (lower text) (lower handle) = true) :
    mentionGate handle text = true ∧
      residualPrompt handle text = pyStrip (replaceList handle [] text) := by
  constructor
  · unfold mentionGate
    rw [← hL]
    exact hOcc
  · rfl

/-- Witness for C2 at a concrete input whose casing differs from the stored
handle: the gate fires, and the replace-then-strip residual is computed. -/
theorem claim2_witness :
    mentionGate (str "@bot") (str "hey @Bot do X") = true ∧
      residualPrompt (str "@bot") (str "hey @Bot do X") =
        pyStrip (replaceList (str "@bot") [] (str "hey @Bot do X")) :=
  claim2_mention_detection (str "hey @Bot do X") (str "@bot") (by decide) (by decide)

/-! ## Claim C3: missing MAX_SNIPPET_LEN / MESSAGE_LIMIT is fatal -/

/-- An environment with both credentials present but neither optional
value set. -/
def envMissingLimits : Str → Option Str := fun k =>
  if k = str "BOT_TOKEN" then some (str "token")
  else if k = str "XAI_API_KEY" then some (str "key")
  else none

/-- Claim C3 (code bug): with both credentials set but `MAX_SNIPPET_LEN`
and `MESSAGE_LIMIT` absent, startup does not fall back to the documented
defaults 160 and 30 — `int(os.getenv("MAX_SNIPPET_LEN"))` evaluates
`int(None)` and the process dies with a `TypeError` at import, contradicting
the module docstring's "(default 160)" / "(default 30)". -/
theorem claim3_missing_limits_fatal :
    startup envMissingLimits = .error .typeError := rfl

/-! ## Claim C4: snippet length bound -/

/-- A user with a public handle, used in concrete scenarios. -/
def aliceUser : TgUser := ⟨7, str "Alice", none, some (str "alice")⟩

/-- A 200-character text message. -/
def longMsg : MsgData := ⟨some (List.replicate 200 'a'), none, str "text", aliceUser⟩

set_option maxRecDepth 4000 in
/-- Claim C4 counterexample: truncation in `format_line` applies to the
message text before the author label is prepended, so the full rendered
history line for a 200-character message at `maxLen = 160` has length
178 ("> Alice (@alice): " plus 160 characters), exceeding `maxLen`. -/
theorem claim4_cex :
    ¬ ((format_line 160 (str "Grok") longMsg false).length ≤ 160) := by decide

/-- Claim C4 as amended (proved): the snippet body — the chosen text after
newline collapsing and truncation, to which the author label is prepended —
has length at most `maxLen`; when truncation occurred it has length exactly
`maxLen` and ends with the single ellipsis marker; it never contains a
newline; and the full rendered line is the author label concatenated with
that body (hence the full line may exceed `maxLen` by the label length). -/
theorem claim4_snippet_bound (maxLen : Int) (m : MsgData) (h1 : 1 ≤ maxLen) :
    ((snippetText maxLen m).length : Int) ≤ maxLen ∧
      (∀ c ∈ snippetText maxLen m, c ≠ '\n') ∧
      (maxLen < ((collapsedText m).length : Int) →
        ((snippetText maxLen m).length : Int) = maxLen ∧
          (snippetText maxLen m).getLast? = some '…') ∧
      (∀ botD isBot, format_line maxLen botD m isBot =
          authorLabel botD m isBot ++ snippetText maxLen m) := by
  have hnl : ∀ c ∈ collapsedText m, c ≠ '\n' := by
    intro c hc
    rcases List.mem_map.1 hc with ⟨a, _, rfl⟩
    by_cases ha : a = '\n'
    · subst ha; decide
    · rw [if_neg ha]; exact ha
  by_cases ht : maxLen < ((collapsedText m).length : Int)
  · have hs : snippetText maxLen m =
        pySliceTo (collapsedText m) (maxLen - 1) ++ ['…'] := by
      unfold snippetText
      rw [if_pos ht]
    have hslice : pySliceTo (collapsedText m) (maxLen - 1) =
        (collapsedText m).take (maxLen - 1).toNat := by
      unfold pySliceTo
      rw [if_pos (by omega : (0 : Int) ≤ maxLen - 1)]
    have hcast : ((maxLen - 1).toNat : Int) = maxLen - 1 :=
      Int.toNat_of_nonneg (by omega)
    have hlt : (maxLen - 1).toNat ≤ (collapsedText m).length := by omega
    have hlen : (snippetText maxLen m).length = (maxLen - 1).toNat + 1 := by
      rw [hs, hslice, List.length_append, List.length_take]
      simp only [List.length_cons, List.length_nil]
      omega
    refine ⟨?_, ?_, fun _ => ⟨?_, ?_⟩, fun _ _ => rfl⟩
    · rw [hlen]; omega
    · intro c hc
      rw [hs, hslice] at hc
      rcases List.mem_append.1 hc with hc1 | hc1
      · exact hnl c (List.take_subset _ _ hc1)
      · rw [List.mem_singleton] at hc1
        subst hc1
        decide
    · rw [hlen]; omega
    · rw [hs]
      exact List.getLast?_concat _
  · have hs : snippetText maxLen m = collapsedText m := by
      unfold snippetText
      rw [if_neg ht]
    refine ⟨?_, ?_, fun hcon => absurd hcon ht, fun _ _ => rfl⟩
    · rw [hs]; omega
    · rw [hs]; exact hnl

/-- A ten-character message, truncated at `maxLen = 5`. -/
def shortMsg : MsgData := ⟨some (str "abcdefghij"), none, str "text", aliceUser⟩

/-- Witness for the amended C4: at `maxLen = 5` the truncated snippet body
of a ten-character message has length exactly 5 and ends with the ellipsis. -/
theorem claim4_witness :
    ((snippetText 5 shortMsg).length : Int) = 5 ∧
      (snippetText 5 shortMsg).getLast? = some '…' :=
  (claim4_snippet_bound 5 shortMsg (by decide)).2.2.1 (by decide)

/-! ## Claim C1: bodies lacking choices[0].message.content -/

lemma subscriptKey_error_kind (v : JVal) (k : Str) (e : PyExc)
    (h : subscriptKey v k = .error e) : e = .keyError ∨ e = .typeError := by
  cases v with
  | jobj fields =>
    have h' : (match fields.lookup k with
        | some x => (Except.ok x : Except PyExc JVal)
        | none => .error .keyError) = .error e := h
    cases hl : fields.lookup k with
    | some x => rw [hl] at h'; exact absurd h' (by simp)
    | none =>
      rw [hl] at h'
      injection h' with h2
      exact Or.inl h2.symm
  | jnull => injection h with h2; exact Or.inr h2.symm
  | jbool b => injection h with h2; exact Or.inr h2.symm
  | jnum n => injection h with h2; exact Or.inr h2.symm
  | jstr s => injection h with h2; exact Or.inr h2.symm
  | jarr xs => injection h with h2; exact Or.inr h2.symm

lemma subscriptIdx_error_kind (v : JVal) (i : Nat) (e : PyExc)
    (h : subscriptIdx v i = .error e) :
    e = .keyError ∨ e = .indexError ∨ e = .typeError := by
  cases v with
  | jarr xs =>
    have h' : (match xs[i]? with
        | some x => (Except.ok x : Except PyExc JVal)
        | none => .error .indexError) = .error e := h
    cases hl : xs[i]? with
    | some x => rw [hl] at h'; exact absurd h' (by simp)
    | none =>
      rw [hl] at h'
      injection h' with h2
      exact Or.inr (Or.inl h2.symm)
  | jstr s =>
    have h' : (match s[i]? with
        | some c => (Except.ok (JVal.jstr [c]) : Except PyExc JVal)
        | none => .error .indexError) = .error e := h
    cases hl : s[i]? with
    | some c => rw [hl] at h'; exact absurd h' (by simp)
    | none =>
      rw [hl] at h'
      injection h' with h2
      exact Or.inr (Or.inl h2.symm)
  | jobj fields => injection h with h2; exact Or.inl h2.symm
  | jnull => injection h with h2; exact Or.inr (Or.inr h2.symm)
  | jbool b => injection h with h2; exact Or.inr (Or.inr h2.symm)
  | jnum n => injection h with h2; exact Or.inr (Or.inr h2.symm)

lemma extractContent_error_kind (v : JVal) (e : PyExc)
    (h : extractContent v = .error e) :
    e = .keyError ∨ e = .indexError ∨ e = .typeError := by
  unfold extractContent at h
  split at h
  next e1 heq =>
    injection h with h2
    subst h2
    rcases subscriptKey_error_kind _ _ _ heq with rfl | rfl
    · exact Or.inl rfl
    · exact Or.inr (Or.inr rfl)
  next c heq =>
    split at h
    next e1 heq2 =>
      injection h with h2
      subst h2
      exact subscriptIdx_error_kind _ _ _ heq2
    next c0 heq2 =>
      split at h
      next e1 heq3 =>
        injection h with h2
        subst h2
        rcases subscriptKey_error_kind _ _ _ heq3 with rfl | rfl
        · exact Or.inl rfl
        · exact Or.inr (Or.inr rfl)
      next m heq3 =>
        rcases subscriptKey_error_kind _ _ _ h with rfl | rfl
        · exact Or.inl rfl
        · exact Or.inr (Or.inr rfl)

/-- A transport oracle answering 200 OK with the JSON body `{}`. -/
def respNoChoices : Nat → Payload → Outcome :=
  fun _ _ => .response ⟨true, [], some (.jobj [])⟩

/-- Claim C1 counterexample: for a 2xx response whose body parses as the
JSON object `{}` (no "choices" key), `ask_grok` does not return the
MalformedResponse placeholder — the `KeyError` raised by
`data["choices"]` is not caught (only `ValueError` and `httpx.HTTPError`
are) and escapes to the caller. -/
theorem claim1_cex :
    ask_grok (str "key") [] (str "hi") none respNoChoices = .error .keyError ∧
      ask_grok (str "key") [] (str "hi") none respNoChoices ≠
        .ok (.jstr malformedMsg) := by
  have hval : ask_grok (str "key") [] (str "hi") none respNoChoices =
      .error .keyError := rfl
  exact ⟨hval, fun hc => Except.noConfusion (hval.symm.trans hc)⟩

/-- Claim C1 as amended (proved): only a body that fails to parse as JSON
yields the MalformedResponse placeholder; a 2xx body that parses as JSON but
lacks the path `choices[0].message.content` makes `ask_grok` propagate the
raw fault — the uncaught exception (always a `KeyError`, `IndexError` or
`TypeError`) escapes to the caller instead of any placeholder string. -/
theorem claim1_amended (apiKey : Str) (hist : List (Bool × Str)) (prompt : Str)
    (repl : Option Str) (sd : Str) (v : JVal) (e : PyExc)
    (hKey : apiKey.isEmpty = false)
    (hLack : extractContent v = .error e) :
    ask_grok apiKey hist prompt repl (fun _ _ => .response ⟨true, sd, some v⟩) =
        .error e ∧
      (e = .keyError ∨ e = .indexError ∨ e = .typeError) ∧
      ask_grok apiKey hist prompt repl (fun _ _ => .response ⟨true, sd, none⟩) =
        .ok (.jstr malformedMsg) := by
  refine ⟨?_, extractContent_error_kind v e hLack, ?_⟩
  · simp [ask_grok, hKey, hLack]
  · simp [ask_grok, hKey]

/-- Witness for the amended C1 at the body `{}`. -/
theorem claim1_witness :
    ask_grok (str "key") [] (str "q") none
        (fun _ _ => .response ⟨true, [], some (.jobj [])⟩) = .error .keyError ∧
      (PyExc.keyError = .keyError ∨ PyExc.keyError = .indexError ∨
        PyExc.keyError = .typeError) ∧
      ask_grok (str "key") [] (str "q") none
        (fun _ _ => .response ⟨true, [], none⟩) = .ok (.jstr malformedMsg) :=
  claim1_amended (str "key") [] (str "q") none [] (.jobj []) .keyError rfl rfl

/-! ## Claim C6: context-assembly block structure -/

/-- Claim C6 counterexample: the "Replied message" block is gated by Python
truthiness (`if replied_line and ...`), so with an empty history and the
empty string as the given reply line — which is not identical to any history
line — the block is nonetheless omitted, refuting "present iff a reply line
is given AND its rendered text is not string-identical to any line in the
history block". -/
theorem claim6_cex :
    (some ([] : Str)).isSome = true ∧
      (([] : List Str).contains ([] : Str)) = false ∧
      buildBlocks [] (some []) (str "hi") = [str "User prompt:\nhi"] :=
  ⟨rfl, rfl, rfl⟩

/-- Claim C6 as amended (proved): the user content is the blank-line join of,
in exactly this order: a "Chat history" block (present iff the history is
non-empty, listing every history line in order), a "Replied message" block
(present iff a reply line is given, is non-empty, and is not string-identical
to any history line), and always a "User prompt" block holding the prompt
verbatim; the system instruction is a separate fixed constant. -/
theorem claim6_blocks_order (h : List Str) (r : Option Str) (p : Str) :
    mkPayload h r p =
      ⟨str "grok-4", systemInstruction,
        List.intercalate (str "\n\n")
          ((if h.isEmpty then [] else
              [str "Chat history:\n" ++ List.intercalate (str "\n") h]) ++
            (match r with
             | some rl =>
               if !rl.isEmpty && !h.contains rl
                 then [str "Replied message:\n" ++ rl] else []
             | none => []) ++
            [str "User prompt:\n" ++ p])⟩ := by
  unfold mkPayload buildBlocks
  cases r with
  | none => cases hh : h.isEmpty <;> simp [hh]
  | some rl =>
    cases hh : h.isEmpty <;> simp [hh] <;> split_ifs <;> simp

/-! ## Claim C8: transport failures become placeholders, one POST per call -/

/-- Claim C8 (confirmed): when the single POST fails at the transport level
(connection failure or timeout, i.e. `httpx.HTTPError` from the call itself)
or comes back non-2xx (`raise_for_status`), `ask_grok` returns the
TransportFailure placeholder embedding the human-readable detail, and no
exception escapes; moreover the result depends only on the transport's
answer to call index 0, so at most one POST is issued and never retried. -/
theorem claim8_transport (apiKey : Str) (hist : List (Bool × Str)) (prompt : Str)
    (repl : Option Str) (hKey : apiKey.isEmpty = false) :
    (∀ d, ask_grok apiKey hist prompt repl (fun _ _ => .netError d) =
        .ok (.jstr (transportMsg d))) ∧
      (∀ sd body, ask_grok apiKey hist prompt repl
          (fun _ _ => .response ⟨false, sd, body⟩) = .ok (.jstr (transportMsg sd))) ∧
      (∀ posts posts' : Nat → Payload → Outcome,
        (∀ pl, posts 0 pl = posts' 0 pl) →
        ask_grok apiKey hist prompt repl posts =
          ask_grok apiKey hist prompt repl posts') := by
  refine ⟨fun d => ?_, fun sd body => ?_, fun posts posts' hpp => ?_⟩
  · simp [ask_grok, hKey]
  · simp [ask_grok, hKey]
  · simp [ask_grok, hKey, hpp]

/-- Witness for C8 at a concrete timeout detail. -/
theorem claim8_witness :
    ask_grok (str "key") [] (str "q?") none (fun _ _ => .netError (str "timeout")) =
      .ok (.jstr (transportMsg (str "timeout"))) :=
  (claim8_transport (str "key") [] (str "q?") none rfl).1 (str "timeout")

/-! ## Claims C7, C9, C10: the conversation handler -/

/-- Claim C7 (confirmed): the inbound message's line is appended to the
conversation history exactly once on every path — when the bot is not
mentioned, when the residual prompt is empty, and when the completion call
raises — and on an answered query exactly two lines are appended in total:
the inbound line followed by the bot's reply line, with the handler's buffer
being exactly the corresponding `dequeAppend` image of the previous buffer
(no other mutation of the history). -/
theorem claim7_history_appends (cap : Nat) (maxLen : Int) (botU botD : Str)
    (botId : Int) (buf : List (Bool × Str)) (msg : Msg)
    (ask : Str → Option Str → Except PyExc Str) :
    (mentionGate botU (orEmpty msg.data.text) = false →
        handle_group cap maxLen botU botD botId buf msg ask =
          ⟨dequeAppend cap buf
              (msg.data.fromUser.id == botId,
                format_line maxLen botD msg.data (msg.data.fromUser.id == botId)),
            none, 0, none⟩) ∧
      (mentionGate botU (orEmpty msg.data.text) = true →
        (residualPrompt botU (orEmpty msg.data.text)).isEmpty = true →
        handle_group cap maxLen botU botD botId buf msg ask =
          ⟨dequeAppend cap buf
              (msg.data.fromUser.id == botId,
                format_line maxLen botD msg.data (msg.data.fromUser.id == botId)),
            some (usageHint botU), 0, none⟩) ∧
      (∀ a, mentionGate botU (orEmpty msg.data.text) = true →
        (residualPrompt botU (orEmpty msg.data.text)).isEmpty = false →
        ask (residualPrompt botU (orEmpty msg.data.text))
            (msg.replyTo.map fun r =>
              format_line maxLen botD r (r.fromUser.id == botId)) = .ok a →
        handle_group cap maxLen botU botD botId buf msg ask =
          ⟨dequeAppend cap
              (dequeAppend cap buf
                (msg.data.fromUser.id == botId,
                  format_line maxLen botD msg.data (msg.data.fromUser.id == botId)))
              (true, format_line maxLen botD
                ⟨some a, none, str "text", ⟨botId, botD, none, none⟩⟩ true),
            some a, 1, none⟩) ∧
      (∀ e, mentionGate botU (orEmpty msg.data.text) = true →
        (residualPrompt botU (orEmpty msg.data.text)).isEmpty = false →
        ask (residualPrompt botU (orEmpty msg.data.text))
            (msg.replyTo.map fun r =>
              format_line maxLen botD r (r.fromUser.id == botId)) = .error e →
        handle_group cap maxLen botU botD botId buf msg ask =
          ⟨dequeAppend cap buf
              (msg.data.fromUser.id == botId,
                format_line maxLen botD msg.data (msg.data.fromUser.id == botId)),
            none, 1, some e⟩) := by
  refine ⟨fun hg => ?_, fun hg hp => ?_, fun a hg hp hask => ?_,
    fun e hg hp hask => ?_⟩
  · simp [handle_group, hg]
  · simp [handle_group, hg, hp]
  · simp [handle_group, hg, hp, hask]
  · simp [handle_group, hg, hp, hask]

/-- Fixture: Alice mentions the bot with a prompt. -/
def witMsg : Msg := ⟨⟨some (str "@bot hello"), none, str "text", aliceUser⟩, none⟩

/-- Fixture: a completion call that succeeds with a fixed answer. -/
def witAsk : Str → Option Str → Except PyExc Str := fun _ _ => .ok (str "hi there")

/-- Witness for C7 on the answered path: exactly two appends, inbound line
then bot reply line. -/
theorem claim7_witness :
    handle_group 30 160 (str "@bot") (str "Grok") 99 [] witMsg witAsk =
      ⟨dequeAppend 30
          (dequeAppend 30 []
            (witMsg.data.fromUser.id == 99,
              format_line 160 (str "Grok") witMsg.data (witMsg.data.fromUser.id == 99)))
          (true, format_line 160 (str "Grok")
            ⟨some (str "hi there"), none, str "text", ⟨99, str "Grok", none, none⟩⟩ true),
        some (str "hi there"), 1, none⟩ :=
  (claim7_history_appends 30 160 (str "@bot") (str "Grok") 99 [] witMsg witAsk).2.2.1
    (str "hi there") rfl rfl rfl

/-- Claim C9 (confirmed): when the bot is mentioned but the residual prompt
is empty after stripping, the handler replies with the usage hint and stops:
the completion client is never invoked (the result is the same for every
`ask`, with zero completion calls), and the only history append is the
inbound message's line — the usage hint is not recorded as a bot message. -/
theorem claim9_empty_prompt (cap : Nat) (maxLen : Int) (botU botD : Str)
    (botId : Int) (buf : List (Bool × Str)) (msg : Msg)
    (ask : Str → Option Str → Except PyExc Str)
    (hg : mentionGate botU (orEmpty msg.data.text) = true)
    (hp : (residualPrompt botU (orEmpty msg.data.text)).isEmpty = true) :
    handle_group cap maxLen botU botD botId buf msg ask =
      ⟨dequeAppend cap buf
          (msg.data.fromUser.id == botId,
            format_line maxLen botD msg.data (msg.data.fromUser.id == botId)),
        some (usageHint botU), 0, none⟩ := by
  simp [handle_group, hg, hp]

/-- Fixture: a bare mention with no prompt after stripping. -/
def witMsg9 : Msg := ⟨⟨some (str "@bot"), none, str "text", aliceUser⟩, none⟩

/-- Witness for C9 at the bare mention "@bot". -/
theorem claim9_witness :
    handle_group 30 160 (str "@bot") (str "Grok") 99 [] witMsg9 witAsk =
      ⟨dequeAppend 30 []
          (witMsg9.data.fromUser.id == 99,
            format_line 160 (str "Grok") witMsg9.data (witMsg9.data.fromUser.id == 99)),
        some (usageHint (str "@bot")), 0, none⟩ :=
  claim9_empty_prompt 30 160 (str "@bot") (str "Grok") 99 [] witMsg9 witAsk rfl rfl

/-- Claim C10 (confirmed): a message with no text field whose caption
contains the mention handle is appended to history rendered via its caption,
but the mention gate reads only the text field (`msg.text or ""`), so the
bot sends no reply and the completion client is never called. -/
theorem claim10_caption_ignored (cap : Nat) (maxLen : Int) (botU botD : Str)
    (botId : Int) (buf : List (Bool × Str)) (msg : Msg)
    (ask : Str → Option Str → Except PyExc Str) (c : Str)
    (hT : msg.data.text = none) (hC : msg.data.caption = some c)
    (hNE : c.isEmpty = false)
    (hMention : listContains (lower c) botU = true)
    (hU : botU ≠ []) :
    handle_group cap maxLen botU botD botId buf msg ask =
      ⟨dequeAppend cap buf
          (msg.data.fromUser.id == botId,
            format_line maxLen botD msg.data (msg.data.fromUser.id == botId)),
        none, 0, none⟩ ∧
      rawText msg.data = c ∧
      mentionGate botU (orEmpty msg.data.text) = false := by
  have hGate : mentionGate botU (orEmpty msg.data.text) = false := by
    rw [hT]
    show mentionGate botU [] = false
    unfold mentionGate lower
    rw [List.map_nil]
    exact listContains_nil botU hU
  refine ⟨?_, ?_, hGate⟩
  · simp [handle_group, hGate]
  · simp [rawText, hT, hC, orElseStr, hNE]

/-- Fixture: a caption-only photo message whose caption mentions the bot. -/
def witMsg10 : Msg := ⟨⟨none, some (str "@bot in caption"), str "photo", aliceUser⟩, none⟩

/-- Witness for C10 at a concrete caption-only message. -/
theorem claim10_witness :
    handle_group 30 160 (str "@bot") (str "Grok") 99 [] witMsg10 witAsk =
      ⟨dequeAppend 30 []
          (witMsg10.data.fromUser.id == 99,
            format_line 160 (str "Grok") witMsg10.data (witMsg10.data.fromUser.id == 99)),
        none, 0, none⟩ ∧
      rawText witMsg10.data = str "@bot in caption" ∧
      mentionGate (str "@bot") (orEmpty witMsg10.data.text) = false :=
  claim10_caption_ignored 30 160 (str "@bot") (str "Grok") 99 [] witMsg10 witAsk
    (str "@bot in caption") rfl rfl rfl (by decide) (by decide)

end GrokBot
